import Mathlib

/-!
Verification of the statistics/date-range engine of the senob clinical-records
backend (src/utils/queryBuilder.ts — the dateUtils module, src/services/statsService.ts,
and the legacy stats logic embedded in the route file).

JavaScript dates are modelled as `Int` values counting milliseconds on the
host's local clock (a fixed-offset timezone; all field getters/setters of
ECMAScript Date operate on local calendar fields, which for a fixed offset is
exactly arithmetic on this representation).  String parsing, which in
ECMAScript yields a UTC instant for date-only and Z-suffixed forms, takes the
host's UTC offset `off` (in milliseconds) as an explicit parameter: a parsed
UTC instant u corresponds to local-clock value u + off.
-/

/-- Milliseconds per local calendar day. -/
def dayMs : Int := 86400000

/-- Milliseconds per hour. -/
def hourMs : Int := 3600000

/-- Days since 1970-01-01 of a proleptic-Gregorian civil date (month 1..12),
the standard era-decomposition algorithm; models ECMAScript MakeDay for
in-range month/day fields. -/
def days_from_civil (y m d : Int) : Int :=
  let y2 := y - (if m ≤ 2 then 1 else 0)
  let era := y2 / 400
  let yoe := y2 - era * 400
  let doy := (153 * (if 2 < m then m - 3 else m + 9) + 2) / 5 + d - 1
  let doe := yoe * 365 + yoe / 4 - yoe / 100 + doy
  era * 146097 + doe - 719468

/-- Year and month (1..12) containing a day number, the standard inverse
era-decomposition; models ECMAScript YearFromTime / MonthFromTime. -/
def ym_from_days (z : Int) : Int × Int :=
  let w := z + 719468
  let era := w / 146097
  let doe := w % 146097
  let yoe := (doe - doe / 1460 + doe / 36524 - doe / 146096) / 365
  let doy := doe - (365 * yoe + yoe / 4 - yoe / 100)
  let mp := (5 * doy + 2) / 153
  let m := if mp < 10 then mp + 3 else mp - 9
  (yoe + era * 400 + (if m ≤ 2 then 1 else 0), m)

/-- ECMAScript MakeDay: day number of (year y, zero-based month m, day-of-month d),
normalising an out-of-range month into the year and an out-of-range day by
counting from the first of the month. -/
def makeDay (y m d : Int) : Int :=
  days_from_civil (y + m / 12) (m % 12 + 1) 1 + (d - 1)

/-- Day number of the local day containing local-clock instant t (ECMAScript Day). -/
def daysOf (t : Int) : Int := t / dayMs

/-- Millisecond of the local day of instant t (ECMAScript TimeWithinDay). -/
def todOf (t : Int) : Int := t % dayMs

/-- Date.prototype.getFullYear. -/
def getFullYear (t : Int) : Int := (ym_from_days (daysOf t)).1

/-- Date.prototype.getMonth (zero-based). -/
def getMonth (t : Int) : Int := (ym_from_days (daysOf t)).2 - 1

/-- Date.prototype.getDate (day of month), computed as the offset of the day
number from MakeDay(year, month, 1), i.e. from the first of the containing
month (ECMAScript DateFromTime). -/
def getDate (t : Int) : Int := daysOf t - makeDay (getFullYear t) (getMonth t) 1 + 1

/-- Date.prototype.getHours. -/
def getHours (t : Int) : Int := todOf t / hourMs

/-- Date.prototype.getDay: 0 = Sunday .. 6 = Saturday (ECMAScript WeekDay;
day 0, 1970-01-01, was a Thursday). -/
def getDay (t : Int) : Int := (daysOf t + 4) % 7

/-- Date.prototype.setHours(h, mi, s, ms): keep the local day, replace the
time of day. -/
def setHours (t h mi s ms : Int) : Int :=
  daysOf t * dayMs + (h * hourMs + mi * 60000 + s * 1000 + ms)

/-- Date.prototype.setDate(x): MakeDay with the current year and month and the
given day-of-month, keeping the time of day. -/
def setDate (t x : Int) : Int :=
  makeDay (getFullYear t) (getMonth t) x * dayMs + todOf t

/-- Date.prototype.setMonth(M): MakeDay with the current year and day-of-month
and the given zero-based month (out-of-range months carry into the year,
out-of-range days overflow past the month end), keeping the time of day. -/
def setMonth (t M : Int) : Int :=
  makeDay (getFullYear t) M (getDate t) * dayMs + todOf t

/-- Date.prototype.setFullYear(y): MakeDay with the given year and the current
month and day-of-month, keeping the time of day. -/
def setFullYear (t y : Int) : Int :=
  makeDay y (getMonth t) (getDate t) * dayMs + todOf t

/-- Local-clock instant of local midnight on a civil date (statement helper). -/
def localMidnight (y m d : Int) : Int := days_from_civil y m d * dayMs

/-- Local-clock instant of a local wall-clock time on a civil date
(statement helper). -/
def localInstant (y m d h mi : Int) : Int :=
  localMidnight y m d + h * hourMs + mi * 60000

theorem setDate_getDate_add (t a : Int) : setDate t (getDate t + a) = t + a * dayMs := by
  simp only [setDate, getDate, makeDay, getFullYear, getMonth, daysOf, todOf, dayMs]
  omega

theorem setDate_getDate_sub (t a : Int) : setDate t (getDate t - a) = t - a * dayMs := by
  have h := setDate_getDate_add t (-a)
  simp only [sub_eq_add_neg, neg_mul] at h ⊢
  exact h

-- sanity checks of the calendar model on concrete dates
example : ym_from_days 0 = (1970, 1) := by decide
example : ym_from_days 19889 = (2024, 6) := by decide
example : days_from_civil 2024 6 15 = 19889 := by decide
example : days_from_civil 2024 2 29 = 19782 := by decide
example : ym_from_days 19782 = (2024, 2) := by decide
example : getDate (19782 * dayMs) = 29 := by decide
example : ym_from_days 19783 = (2024, 3) := by decide
example : getDate (19783 * dayMs) = 1 := by decide
example : ym_from_days (days_from_civil 1900 2 28) = (1900, 2) := by decide
example : ym_from_days (days_from_civil 1900 3 1) = (1900, 3) := by decide
example : ym_from_days (days_from_civil 2000 2 29) = (2000, 2) := by decide
example : ym_from_days (days_from_civil 1969 12 31) = (1969, 12) := by decide
example : getDate (days_from_civil 1969 12 31 * dayMs) = 31 := by decide
example : getDay (days_from_civil 2024 6 16 * dayMs) = 0 := by decide
example : getDay (days_from_civil 2024 6 10 * dayMs) = 1 := by decide

/-! Embedding of src/utils/queryBuilder.ts (the dateUtils module). -/

/-- The five time-frame tokens: '1d' | '1w' | '1m' | '6m' | '1y'. -/
inductive TimeFrame where
  | t1d
  | t1w
  | t1m
  | t6m
  | t1y
deriving DecidableEq

/-- Display granularity: 'hour' | 'day' | 'week' | 'month'. -/
inductive GroupingInterval where
  | hour
  | day
  | week
  | month
deriving DecidableEq

/-- Calendar unit: 'day' | 'month' | 'year'. -/
inductive DateUnit where
  | day
  | month
  | year
deriving DecidableEq

/-- Per-time-frame configuration. -/
structure TimeFrameConfig where
  duration : Int
  unit : DateUnit
  groupingInterval : GroupingInterval
  includeToday : Bool
deriving DecidableEq

/-- The TIME_FRAME_CONFIG record. -/
def TIME_FRAME_CONFIG : TimeFrame → TimeFrameConfig
  | .t1d => ⟨1, .day, .hour, true⟩
  | .t1w => ⟨7, .day, .day, true⟩
  | .t1m => ⟨1, .month, .day, true⟩
  | .t6m => ⟨6, .month, .week, true⟩
  | .t1y => ⟨1, .year, .month, true⟩

/-- addTimeUnit: add or subtract time units from a date via the native
setDate / setMonth / setFullYear field setters. -/
def addTimeUnit (date amount : Int) : DateUnit → Int
  | .day => setDate date (getDate date + amount)
  | .month => setMonth date (getMonth date + amount)
  | .year => setFullYear date (getFullYear date + amount)

/-- setStartOfDay: set time to 00:00:00.000. -/
def setStartOfDay (t : Int) : Int := setHours t 0 0 0 0

/-- setEndOfDay: set time to 23:59:59.999. -/
def setEndOfDay (t : Int) : Int := setHours t 23 59 59 999

/-- calculateStartDate: for day-based frames subtract (duration - 1) when
includeToday, else the full duration; for month/year frames subtract the full
duration; then floor to start of day. -/
def calculateStartDate (now : Int) (config : TimeFrameConfig) : Int :=
  if config.unit = DateUnit.day then
    let daysToSubtract := if config.includeToday then config.duration - 1 else config.duration
    setStartOfDay (addTimeUnit now (-daysToSubtract) DateUnit.day)
  else
    setStartOfDay (addTimeUnit now (-config.duration) config.unit)

/-- calculateEndDate: end of today when includeToday, else end of yesterday. -/
def calculateEndDate (now : Int) (config : TimeFrameConfig) : Int :=
  if config.includeToday then setEndOfDay now
  else setEndOfDay (addTimeUnit now (-1) DateUnit.day)

/-- The raw previous-window end before end-of-day normalisation:
previousEnd = start - 1 ms. -/
def previousEndRaw (start : Int) : Int := start - 1

/-- The raw previous-window start before start-of-day normalisation:
previousStart = previousEnd - (end - start). -/
def previousStartRaw (start endDate : Int) : Int :=
  previousEndRaw start - (endDate - start)

/-- calculatePreviousPeriod: previous window of the same millisecond span,
ending 1 ms before start, then day-boundary normalised.  The config parameter
is accepted (as in the source) but unused. -/
def calculatePreviousPeriod (start endDate : Int) (_config : TimeFrameConfig) : Int × Int :=
  (setStartOfDay (previousStartRaw start endDate), setEndOfDay (previousEndRaw start))

/-- DateRange; the field endDate models the source field named end, and the
previous bounds are optional as in the source interface. -/
structure DateRange where
  start : Int
  endDate : Int
  previousStart : Option Int
  previousEnd : Option Int
deriving DecidableEq

/-- getDateRange for a (valid) time frame.  The source reads now from the
clock; it is passed explicitly here. -/
def getDateRange (timeFrame : TimeFrame) (now : Int) : DateRange :=
  let config := TIME_FRAME_CONFIG timeFrame
  let start := calculateStartDate now config
  let endDate := calculateEndDate now config
  let p := calculatePreviousPeriod start endDate config
  ⟨start, endDate, some p.1, some p.2⟩

/-- getGroupingInterval. -/
def getGroupingInterval (timeFrame : TimeFrame) : GroupingInterval :=
  (TIME_FRAME_CONFIG timeFrame).groupingInterval

/-- String(n).padStart(2, '0') for the outputs used here. -/
def padStart2 (s : String) : String :=
  if s.length = 0 then "00" else if s.length = 1 then "0" ++ s else s

/-- Formatted local date components (getDateComponents in the source). -/
structure DateComponents where
  year : String
  month : String
  day : String
  hour : String

/-- getDateComponents: year, 1-based zero-padded month, zero-padded day and
hour of a local instant, as strings. -/
def getDateComponents (t : Int) : DateComponents :=
  { year := toString (getFullYear t)
    month := padStart2 (toString (getMonth t + 1))
    day := padStart2 (toString (getDate t))
    hour := padStart2 (toString (getHours t)) }

/-- getWeekStart: move to the Monday of the week (Sunday counted as day 7). -/
def getWeekStart (t : Int) : Int :=
  let dayOfWeek := if getDay t = 0 then 7 else getDay t
  setDate t (getDate t - dayOfWeek + 1)

/-- formatDateForGrouping: canonical bucket label of an instant at a grouping
interval. -/
def formatDateForGrouping (t : Int) (interval : GroupingInterval) : String :=
  let c := getDateComponents t
  match interval with
  | .hour => c.year ++ "-" ++ c.month ++ "-" ++ c.day ++ " " ++ c.hour ++ ":00"
  | .day => c.year ++ "-" ++ c.month ++ "-" ++ c.day
  | .week =>
      let wc := getDateComponents (getWeekStart t)
      wc.year ++ "-" ++ wc.month ++ "-" ++ wc.day
  | .month => c.year ++ "-" ++ c.month

/-! Model of ECMAScript new Date(string) for the date/date-time string shapes
the repository stores, and the date normaliser built on it. -/

/-- Numeric value of a decimal digit character. -/
def digitVal (c : Char) : Option Int :=
  if c.isDigit then some ((c.toNat : Int) - 48) else none

/-- Two-digit decimal field. -/
def twoDigits (a b : Char) : Option Int := do
  let x ← digitVal a
  let y ← digitVal b
  pure (10 * x + y)

/-- Four-digit decimal field. -/
def fourDigits (a b c d : Char) : Option Int := do
  let x ← twoDigits a b
  let y ← twoDigits c d
  pure (100 * x + y)

/-- Three-digit decimal field (milliseconds). -/
def threeDigits (a b c : Char) : Option Int := do
  let x ← digitVal a
  let y ← digitVal b
  let z ← digitVal c
  pure (100 * x + 10 * y + z)

/-- Number of days in a civil month. -/
def daysInMonth (y m : Int) : Int :=
  days_from_civil (if m = 12 then y + 1 else y) (if m = 12 then 1 else m + 1) 1 -
    days_from_civil y m 1

/-- Parse the time part after the T of an ISO date-time: HH:MM, optional :SS,
optional .mmm, optional trailing Z.  Returns the millisecond of day and
whether the Z UTC designator was present. -/
def parseTimePart : List Char → Option (Int × Bool)
  | [a, b, ':', c, d] => do
      let h ← twoDigits a b
      let mi ← twoDigits c d
      if h ≤ 23 ∧ mi ≤ 59 then pure (h * hourMs + mi * 60000, false) else none
  | [a, b, ':', c, d, 'Z'] => do
      let h ← twoDigits a b
      let mi ← twoDigits c d
      if h ≤ 23 ∧ mi ≤ 59 then pure (h * hourMs + mi * 60000, true) else none
  | [a, b, ':', c, d, ':', e, f] => do
      let h ← twoDigits a b
      let mi ← twoDigits c d
      let s ← twoDigits e f
      if h ≤ 23 ∧ mi ≤ 59 ∧ s ≤ 59 then pure (h * hourMs + mi * 60000 + s * 1000, false) else none
  | [a, b, ':', c, d, ':', e, f, 'Z'] => do
      let h ← twoDigits a b
      let mi ← twoDigits c d
      let s ← twoDigits e f
      if h ≤ 23 ∧ mi ≤ 59 ∧ s ≤ 59 then pure (h * hourMs + mi * 60000 + s * 1000, true) else none
  | [a, b, ':', c, d, ':', e, f, '.', x, y, z] => do
      let h ← twoDigits a b
      let mi ← twoDigits c d
      let s ← twoDigits e f
      let ms ← threeDigits x y z
      if h ≤ 23 ∧ mi ≤ 59 ∧ s ≤ 59 then
        pure (h * hourMs + mi * 60000 + s * 1000 + ms, false)
      else none
  | [a, b, ':', c, d, ':', e, f, '.', x, y, z, 'Z'] => do
      let h ← twoDigits a b
      let mi ← twoDigits c d
      let s ← twoDigits e f
      let ms ← threeDigits x y z
      if h ≤ 23 ∧ mi ≤ 59 ∧ s ≤ 59 then
        pure (h * hourMs + mi * 60000 + s * 1000 + ms, true)
      else none
  | _ => none

/-- new Date(string) restricted to the ISO shapes in play, returning the
local-clock value of the parsed instant or none for an unparseable string.
A date-only string and a Z-suffixed date-time denote UTC instants, hence the
host offset off is added; a date-time without Z is local time.  Out-of-range
fields are rejected (Invalid Date). -/
def jsDateParse (off : Int) (s : String) : Option Int :=
  match s.toList with
  | y1 :: y2 :: y3 :: y4 :: '-' :: mo1 :: mo2 :: '-' :: dd1 :: dd2 :: rest => do
      let y ← fourDigits y1 y2 y3 y4
      let m ← twoDigits mo1 mo2
      let d ← twoDigits dd1 dd2
      if 1 ≤ m ∧ m ≤ 12 ∧ 1 ≤ d ∧ d ≤ daysInMonth y m then
        match rest with
        | [] => pure (days_from_civil y m d * dayMs + off)
        | 'T' :: timeChars => do
            let tb ← parseTimePart timeChars
            if tb.2 then pure (days_from_civil y m d * dayMs + tb.1 + off)
            else pure (days_from_civil y m d * dayMs + tb.1)
        | _ => none
      else none
  | _ => none

/-- The strict date-only test date.match of the pattern with four digits, a
dash, two digits, a dash and two digits, anchored at both ends. -/
def matchesDateOnlyPattern (s : String) : Bool :=
  match s.toList with
  | [a, b, c, d, '-', e, f, '-', x, y] =>
      a.isDigit && b.isDigit && c.isDigit && d.isDigit &&
      e.isDigit && f.isDigit && x.isDigit && y.isDigit
  | _ => false

/-- A value of the date field of a stored record: absent, a native Date
(holding a local-clock instant), or a string. -/
inductive DateValue where
  | undef
  | dateObj (t : Int)
  | str (s : String)
deriving DecidableEq

/-- normalizeDate: absent or empty input gives null; a Date is returned
unchanged; a string is parsed, date-only strings are floored to local start
of day, other parseable strings are returned as parsed; unparseable gives
null. -/
def normalizeDate (off : Int) (date : DateValue) : Option Int :=
  match date with
  | .undef => none
  | .dateObj t => some t
  | .str s =>
      if s = "" then none
      else
        match jsDateParse off s with
        | none => none
        | some parsed =>
            if matchesDateOnlyPattern s then some (setStartOfDay parsed) else some parsed

/-- isDateInRange: compare by calendar day - the date floored to start of day
against start-of-day(start) and end-of-day(end), inclusive. -/
def isDateInRange (date startDate endDate : Int) : Bool :=
  decide (setStartOfDay startDate ≤ setStartOfDay date) &&
  decide (setStartOfDay date ≤ setEndOfDay endDate)

/-! Embedding of the legacy getDateRange embedded in the stats routes of
src/routes/treatmentRoutes.ts (switch-based, with per-case previous-window
computation by calendar-unit subtraction). -/

/-- The legacy route-embedded getDateRange (now passed explicitly). -/
def legacyGetDateRange (timeFrame : TimeFrame) (now : Int) : DateRange :=
  let endDate := setHours now 23 59 59 999
  match timeFrame with
  | .t1d =>
      let start := setHours now 0 0 0 0
      let previousStart := setDate start (getDate start - 1)
      let previousEnd := setDate endDate (getDate endDate - 1)
      ⟨start, endDate, some previousStart, some previousEnd⟩
  | .t1w =>
      let start := setHours (setDate now (getDate now - 6)) 0 0 0 0
      let previousStart := setDate start (getDate start - 7)
      let previousEnd := setHours (setDate start (getDate start - 1)) 23 59 59 999
      ⟨start, endDate, some previousStart, some previousEnd⟩
  | .t1m =>
      let start := setHours (setMonth now (getMonth now - 1)) 0 0 0 0
      let previousStart := setMonth start (getMonth start - 1)
      let previousEnd := setHours (setDate start (getDate start - 1)) 23 59 59 999
      ⟨start, endDate, some previousStart, some previousEnd⟩
  | .t6m =>
      let start := setHours (setMonth now (getMonth now - 6)) 0 0 0 0
      let previousStart := setMonth start (getMonth start - 6)
      let previousEnd := setHours (setDate start (getDate start - 1)) 23 59 59 999
      ⟨start, endDate, some previousStart, some previousEnd⟩
  | .t1y =>
      let start := setHours (setFullYear now (getFullYear now - 1)) 0 0 0 0
      let previousStart := setFullYear start (getFullYear start - 1)
      let previousEnd := setHours (setDate start (getDate start - 1)) 23 59 59 999
      ⟨start, endDate, some previousStart, some previousEnd⟩

/-! Embedding of src/services/statsService.ts and its route-level error
handling (src/utils/errors.ts, the app-level onError of src/index.ts). -/

/-- One output bucket: a canonical period label and a count. -/
structure PeriodBucket where
  period : String
  count : Nat
deriving DecidableEq

/-- One step of grouped[key] = (grouped[key] || 0) + 1 on a string-keyed
object; the label keys are not array indices, so the object preserves
insertion order, modelled as an association list. -/
def bumpKey : List (String × Nat) → String → List (String × Nat)
  | [], k => [(k, 1)]
  | (k2, c) :: rest, k =>
      if k2 = k then (k2, c + 1) :: rest else (k2, c) :: bumpKey rest k

/-- groupByInterval: count items per bucket label, skipping items whose date
does not normalise. -/
def groupByInterval {α : Type} (off : Int) (items : List α) (interval : GroupingInterval)
    (dateExtractor : α → DateValue) : List (String × Nat) :=
  items.foldl
    (fun grouped item =>
      match normalizeDate off (dateExtractor item) with
      | none => grouped
      | some d => bumpKey grouped (formatDateForGrouping d interval))
    []

/-- Lexicographic comparison of character lists by code point; charListLe x y
is true when x precedes or equals y.  This is the order localeCompare induces
on the ASCII digit/dash/space labels produced here. -/
def charListLe : List Char → List Char → Bool
  | [], _ => true
  | _ :: _, [] => false
  | c :: cs, d :: ds =>
      if c.toNat < d.toNat then true
      else if d.toNat < c.toNat then false
      else charListLe cs ds

/-- The comparator the source sorts buckets with: a.localeCompare(b) ≤ 0. -/
def labelLe (a b : String) : Bool := charListLe a.data b.data

/-- Insert a bucket into a label-sorted bucket list. -/
def insertBucketSorted (b : PeriodBucket) : List PeriodBucket → List PeriodBucket
  | [] => [b]
  | c :: rest =>
      if labelLe b.period c.period then b :: c :: rest else c :: insertBucketSorted b rest

/-- Sort buckets ascending by label.  The source sorts with localeCompare;
on the ASCII digit/dash/space labels produced here that is codepoint order,
and the labels are distinct object keys, so the sorted permutation is unique
and insertion sort computes it. -/
def sortBucketsByPeriod (l : List PeriodBucket) : List PeriodBucket :=
  l.foldr insertBucketSorted []

/-- convertToPeriodData: entries of the grouped object as buckets, sorted
ascending by label. -/
def convertToPeriodData (grouped : List (String × Nat)) : List PeriodBucket :=
  sortBucketsByPeriod (grouped.map (fun e => ⟨e.1, e.2⟩))

/-- Math.round: round to the nearest integer, ties toward positive infinity. -/
def jsMathRound (q : ℚ) : Int := ⌊q + 1 / 2⌋

/-- The unrounded change metric: percentage change when the previous total is
positive, else 100 when the current total is positive, else 0. -/
def statsChange (totalCurrent totalPrevious : Nat) : ℚ :=
  if 0 < totalPrevious then
    (((totalCurrent : ℚ) - (totalPrevious : ℚ)) / (totalPrevious : ℚ)) * 100
  else if 0 < totalCurrent then 100 else 0

/-- Math.round(change * 100) / 100, the rounding applied by every stats
endpoint. -/
def roundedStatsChange (totalCurrent totalPrevious : Nat) : ℚ :=
  ((jsMathRound (statsChange totalCurrent totalPrevious * 100) : ℚ)) / 100

/-- Rounding to 2 decimal places with ties away from zero — the rounding the
spec ascribes to the change metric; defined from the spec's words for
comparison with the code's Math.round-based rounding. -/
def specRound2HalfAwayFromZero (q : ℚ) : ℚ :=
  (((if 0 ≤ q then ⌊q * 100 + 1 / 2⌋ else -⌊(-q) * 100 + 1 / 2⌋) : Int) : ℚ) / 100

/-- One partition of a TimeSeriesStats payload. -/
structure PeriodData where
  data : List PeriodBucket
  total : Nat
deriving DecidableEq

/-- The token string a TimeFrame value denotes; the stats payload echoes the
raw timeFrame token, so the payload field below is a string. -/
def timeFrameToken : TimeFrame → String
  | .t1d => "1d"
  | .t1w => "1w"
  | .t1m => "1m"
  | .t6m => "6m"
  | .t1y => "1y"

/-- The stats payload returned by the patients/treatments stats endpoints;
timeFrame is the echoed token string. -/
structure TimeSeriesStats where
  timeFrame : String
  current : PeriodData
  previous : PeriodData
  change : ℚ
deriving DecidableEq

/-- A stored treatment as the stats service sees it: only its date field,
which may be a Date, a string, or absent. -/
structure TreatmentRec where
  date : DateValue
deriving DecidableEq

/-- A stored patient as the stats service sees it: its createdAt instant
(written by the backend as a Date). -/
structure PatientRec where
  createdAt : Int
deriving DecidableEq

/-- The filter predicate of getTreatmentsStats: the date normalises and lies
in the (day-granularity) range. -/
def treatmentInRange (off startDate endDate : Int) (t : TreatmentRec) : Bool :=
  match normalizeDate off t.date with
  | none => false
  | some d => isDateInRange d startDate endDate

/-- The MongoDB query filter of getPatientsStats: createdAt between the two
instants, inclusive, by instant comparison. -/
def patientInRange (startDate endDate : Int) (p : PatientRec) : Bool :=
  decide (startDate ≤ p.createdAt) && decide (p.createdAt ≤ endDate)

/-- StatsService.getTreatmentsStats, after the collection fetch: filter all
treatments into the current and previous windows via the date normaliser,
group each partition, and attach totals and the rounded change. -/
def getTreatmentsStatsCore (off : Int) (allTreatments : List TreatmentRec)
    (timeFrame : TimeFrame) (now : Int) : TimeSeriesStats :=
  let r := getDateRange timeFrame now
  let interval := getGroupingInterval timeFrame
  let currentTreatments := allTreatments.filter (treatmentInRange off r.start r.endDate)
  let previousTreatments :=
    match r.previousStart, r.previousEnd with
    | some ps, some pe => allTreatments.filter (treatmentInRange off ps pe)
    | _, _ => []
  let currentGrouped := groupByInterval off currentTreatments interval (fun t => t.date)
  let previousGrouped := groupByInterval off previousTreatments interval (fun t => t.date)
  { timeFrame := timeFrameToken timeFrame
    current := ⟨convertToPeriodData currentGrouped, currentTreatments.length⟩
    previous := ⟨convertToPeriodData previousGrouped, previousTreatments.length⟩
    change := roundedStatsChange currentTreatments.length previousTreatments.length }

/-- StatsService.getPatientsStats, after the collection queries: the store
filters patients by createdAt instant; grouping reads createdAt as a Date. -/
def getPatientsStatsCore (off : Int) (patients : List PatientRec)
    (timeFrame : TimeFrame) (now : Int) : TimeSeriesStats :=
  let r := getDateRange timeFrame now
  let interval := getGroupingInterval timeFrame
  let currentPatients := patients.filter (patientInRange r.start r.endDate)
  let previousPatients :=
    match r.previousStart, r.previousEnd with
    | some ps, some pe => patients.filter (patientInRange ps pe)
    | _, _ => []
  let currentGrouped :=
    groupByInterval off currentPatients interval (fun p => DateValue.dateObj p.createdAt)
  let previousGrouped :=
    groupByInterval off previousPatients interval (fun p => DateValue.dateObj p.createdAt)
  { timeFrame := timeFrameToken timeFrame
    current := ⟨convertToPeriodData currentGrouped, currentPatients.length⟩
    previous := ⟨convertToPeriodData previousGrouped, previousPatients.length⟩
    change := roundedStatsChange currentPatients.length previousPatients.length }

/-- An error escaping a route handler: an HTTPError carries its own status
code and error code; any other thrown Error is plain. -/
inductive JsError where
  | http (message : String) (statusCode : Nat) (errorCode : String)
  | plain (message : String)
deriving DecidableEq

/-- The status code the app-level onError handler responds with. -/
def appErrorStatus : JsError → Nat
  | .http _ statusCode _ => statusCode
  | .plain _ => 500

/-- The error code string the app-level onError handler responds with. -/
def appErrorCode : JsError → String
  | .http _ _ errorCode => errorCode
  | .plain _ => "Server Error"

/-- Whether a status code is in the client-error class. -/
def isClientErrorStatus (c : Nat) : Bool := decide (400 ≤ c) && decide (c < 500)

/-- Outcome of the JS property lookup TIME_FRAME_CONFIG[token]: an own key
(one of the five tokens) yields its config; any other token continues along
the prototype chain, where an Object.prototype member name yields a truthy
inherited value (a function, or Object.prototype itself for proto); only a
genuinely absent property gives undefined. -/
inductive ConfigLookup where
  | own (tf : TimeFrame)
  | inherited
  | absent
deriving DecidableEq

/-- The property names every plain object literal inherits from
Object.prototype; looking any of them up on TIME_FRAME_CONFIG yields a
truthy value, so the !config guard does not fire for these tokens. -/
def objectProtoMembers : List String :=
  ["constructor", "hasOwnProperty", "isPrototypeOf", "propertyIsEnumerable",
    "toLocaleString", "toString", "valueOf", "__proto__",
    "__defineGetter__", "__defineSetter__", "__lookupGetter__", "__lookupSetter__"]

/-- Whether a token collides with an inherited Object.prototype member. -/
def isObjectProtoMember (s : String) : Bool :=
  objectProtoMembers.any (fun m => decide (m = s))

/-- The TIME_FRAME_CONFIG lookup on a raw token: the route casts the query
string to TimeFrame unchecked, so an arbitrary token reaches the config
record, and JS property lookup walks the prototype chain: the five own keys
yield their configs, Object.prototype member names yield a truthy inherited
value, and only other strings yield undefined. -/
def lookupTimeFrame (s : String) : ConfigLookup :=
  if s = "1d" then ConfigLookup.own TimeFrame.t1d
  else if s = "1w" then ConfigLookup.own TimeFrame.t1w
  else if s = "1m" then ConfigLookup.own TimeFrame.t1m
  else if s = "6m" then ConfigLookup.own TimeFrame.t6m
  else if s = "1y" then ConfigLookup.own TimeFrame.t1y
  else if isObjectProtoMember s then ConfigLookup.inherited
  else ConfigLookup.absent

/-- calculateStartDate when the looked-up config is an inherited
Object.prototype member: config.unit is undefined, so the day branch is not
taken; addTimeUnit(now, -undefined, undefined) runs a switch that matches no
case and returns the date unchanged; the result is start-of-day(now). -/
def inheritedCalculateStartDate (now : Int) : Int := setStartOfDay now

/-- calculateEndDate for an inherited config: config.includeToday is
undefined, hence falsy, so the end is end-of-day(yesterday). -/
def inheritedCalculateEndDate (now : Int) : Int :=
  setEndOfDay (addTimeUnit now (-1) DateUnit.day)

/-- getDateRange when the config lookup hit an inherited member: the guard
passes and the usual assembly runs on the degenerate start/end;
calculatePreviousPeriod ignores its config argument, so its body is applied
here through the same raw helpers. -/
def inheritedGetDateRange (now : Int) : DateRange :=
  let start := inheritedCalculateStartDate now
  let endDate := inheritedCalculateEndDate now
  ⟨start, endDate, some (setStartOfDay (previousStartRaw start endDate)),
    some (setEndOfDay (previousEndRaw start))⟩

/-- Grouping when the grouping interval is undefined (inherited config):
formatDateForGrouping's switch matches no case and returns undefined, which
the accumulating object coerces to the single property key "undefined". -/
def groupByUndefinedKey {α : Type} (off : Int) (items : List α)
    (dateExtractor : α → DateValue) : List (String × Nat) :=
  items.foldl
    (fun grouped item =>
      match normalizeDate off (dateExtractor item) with
      | none => grouped
      | some _ => bumpKey grouped "undefined")
    []

/-- StatsService.getPatientsStats when TIME_FRAME_CONFIG[token] found an
inherited Object.prototype member: no error is thrown, the store is queried
with the degenerate range, the undefined grouping interval produces the
"undefined" key for any surviving record, and the raw token is echoed. -/
def getPatientsStatsInherited (off : Int) (patients : List PatientRec)
    (tok : String) (now : Int) : TimeSeriesStats :=
  let r := inheritedGetDateRange now
  let currentPatients := patients.filter (patientInRange r.start r.endDate)
  let previousPatients :=
    match r.previousStart, r.previousEnd with
    | some ps, some pe => patients.filter (patientInRange ps pe)
    | _, _ => []
  let currentGrouped :=
    groupByUndefinedKey off currentPatients (fun p => DateValue.dateObj p.createdAt)
  let previousGrouped :=
    groupByUndefinedKey off previousPatients (fun p => DateValue.dateObj p.createdAt)
  { timeFrame := tok
    current := ⟨convertToPeriodData currentGrouped, currentPatients.length⟩
    previous := ⟨convertToPeriodData previousGrouped, previousPatients.length⟩
    change := roundedStatsChange currentPatients.length previousPatients.length }

/-- StatsService.getTreatmentsStats on an inherited config member, analogous
to the patients case. -/
def getTreatmentsStatsInherited (off : Int) (allTreatments : List TreatmentRec)
    (tok : String) (now : Int) : TimeSeriesStats :=
  let r := inheritedGetDateRange now
  let currentTreatments := allTreatments.filter (treatmentInRange off r.start r.endDate)
  let previousTreatments :=
    match r.previousStart, r.previousEnd with
    | some ps, some pe => allTreatments.filter (treatmentInRange off ps pe)
    | _, _ => []
  let currentGrouped := groupByUndefinedKey off currentTreatments (fun t => t.date)
  let previousGrouped := groupByUndefinedKey off previousTreatments (fun t => t.date)
  { timeFrame := tok
    current := ⟨convertToPeriodData currentGrouped, currentTreatments.length⟩
    previous := ⟨convertToPeriodData previousGrouped, previousTreatments.length⟩
    change := roundedStatsChange currentTreatments.length previousTreatments.length }

/-- getDateRange on a raw token: only a token absent from the object and its
prototype chain throws the plain Error with the Invalid time frame message;
an inherited member passes the guard and yields the degenerate range. -/
def getDateRangeChecked (tok : String) (now : Int) : Except JsError DateRange :=
  match lookupTimeFrame tok with
  | ConfigLookup.own tf => Except.ok (getDateRange tf now)
  | ConfigLookup.inherited => Except.ok (inheritedGetDateRange now)
  | ConfigLookup.absent => Except.error (JsError.plain ("Invalid time frame: " ++ tok))

/-- StatsService.getPatientsStats from the route boundary: a missing
collection throws an HTTPError; then the token reaches getDateRange before
any query runs, so a genuinely unknown token errors without touching the
records, while an Object.prototype collision proceeds to query the store. -/
def getPatientsStatsService (off : Int) (patientsCollection : Option (List PatientRec))
    (tok : String) (now : Int) : Except JsError TimeSeriesStats :=
  match patientsCollection with
  | none => Except.error (JsError.http "Database not initialized" 500 "Database Error")
  | some patients =>
      match lookupTimeFrame tok with
      | ConfigLookup.own tf => Except.ok (getPatientsStatsCore off patients tf now)
      | ConfigLookup.inherited => Except.ok (getPatientsStatsInherited off patients tok now)
      | ConfigLookup.absent => Except.error (JsError.plain ("Invalid time frame: " ++ tok))

/-- StatsService.getTreatmentsStats from the route boundary. -/
def getTreatmentsStatsService (off : Int) (treatmentsCollection : Option (List TreatmentRec))
    (tok : String) (now : Int) : Except JsError TimeSeriesStats :=
  match treatmentsCollection with
  | none => Except.error (JsError.http "Database not initialized" 500 "Database Error")
  | some treatments =>
      match lookupTimeFrame tok with
      | ConfigLookup.own tf => Except.ok (getTreatmentsStatsCore off treatments tf now)
      | ConfigLookup.inherited =>
          Except.ok (getTreatmentsStatsInherited off treatments tok now)
      | ConfigLookup.absent => Except.error (JsError.plain ("Invalid time frame: " ++ tok))

/-- Day number of the Monday on or before day z (Mondays are the day numbers
congruent to 4 modulo 7); statement helper for the ISO-week labels. -/
def mondayOnOrBefore (z : Int) : Int := z - (z - 4) % 7

/-! Helper lemmas about the day-boundary arithmetic. -/

theorem setStartOfDay_mk (n r : Int) (h0 : 0 ≤ r) (h1 : r < dayMs) :
    setStartOfDay (n * dayMs + r) = n * dayMs := by
  simp only [setStartOfDay, setHours, daysOf, dayMs, hourMs] at h1 ⊢
  omega

theorem setStartOfDay_add_mul (t k : Int) :
    setStartOfDay (t + k * dayMs) = setStartOfDay t + k * dayMs := by
  simp only [setStartOfDay, setHours, daysOf, dayMs, hourMs]
  omega

theorem setEndOfDay_of_pred_startOfDay (a : Int) :
    setEndOfDay (setStartOfDay a - 1) = setStartOfDay a - 1 := by
  simp only [setEndOfDay, setStartOfDay, setHours, daysOf, dayMs, hourMs]
  omega

theorem calculateStartDate_shape (now : Int) (config : TimeFrameConfig) :
    ∃ a, calculateStartDate now config = setStartOfDay a := by
  unfold calculateStartDate
  split_ifs <;> exact ⟨_, rfl⟩

/-- C2: for every TimeFrame and every now, the DateRange returned by
getDateRange has previous bounds with previousEnd = start − 1 ms, hence
strictly previousEnd < start (the previous window never overlaps the current
one), and before the final start-of-day flooring of previousStart and
end-of-day ceiling of previousEnd the raw previous bounds span exactly
(end − start) wall-clock milliseconds. -/
theorem c2_previous_window_invariant (tf : TimeFrame) (now : Int) :
    ((getDateRange tf now).previousEnd = some ((getDateRange tf now).start - 1) ∧
      ∃ pe, (getDateRange tf now).previousEnd = some pe ∧ pe < (getDateRange tf now).start) ∧
    previousEndRaw (getDateRange tf now).start -
        previousStartRaw (getDateRange tf now).start (getDateRange tf now).endDate =
      (getDateRange tf now).endDate - (getDateRange tf now).start := by
  obtain ⟨a, ha⟩ := calculateStartDate_shape now (TIME_FRAME_CONFIG tf)
  simp only [getDateRange, calculatePreviousPeriod]
  refine ⟨⟨?_, ?_⟩, ?_⟩
  · simp only [previousEndRaw, ha, setEndOfDay_of_pred_startOfDay]
  · refine ⟨setStartOfDay a - 1, ?_, by omega⟩
    simp only [previousEndRaw, ha, setEndOfDay_of_pred_startOfDay]
  · simp only [previousEndRaw, previousStartRaw]
    omega

/-- C3: for every day-unit config with includeToday, the window start is
start-of-day(now) minus (duration − 1) whole days — so a 7-day frame spans
exactly today and the six preceding days — and in particular for time frame
1d with now = 2024-06-15T10:00 local the computed range is
start = 2024-06-15T00:00:00.000, end = 2024-06-15T23:59:59.999,
previousStart = 2024-06-14T00:00:00.000, previousEnd = 2024-06-14T23:59:59.999. -/
theorem c3_day_unit_start (config : TimeFrameConfig) (now : Int)
    (hunit : config.unit = DateUnit.day) (hinc : config.includeToday = true) :
    (calculateStartDate now config = setStartOfDay now - (config.duration - 1) * dayMs) ∧
    getDateRange TimeFrame.t1d (localInstant 2024 6 15 10 0) =
      ⟨localMidnight 2024 6 15, localMidnight 2024 6 15 + (dayMs - 1),
        some (localMidnight 2024 6 14), some (localMidnight 2024 6 14 + (dayMs - 1))⟩ := by
  constructor
  · simp only [calculateStartDate, hunit, hinc, if_true]
    simp only [addTimeUnit, setDate_getDate_add]
    have h := setStartOfDay_add_mul now (-(config.duration - 1))
    simp only [neg_mul] at h
    rw [show now + -((config.duration - 1) * dayMs) = now + -(config.duration - 1) * dayMs by ring] at h
    rw [h]
    ring
  · decide

theorem c3_day_unit_start_witness :
    calculateStartDate (localInstant 2024 6 15 10 0) (TIME_FRAME_CONFIG TimeFrame.t1w) =
      setStartOfDay (localInstant 2024 6 15 10 0) -
        ((TIME_FRAME_CONFIG TimeFrame.t1w).duration - 1) * dayMs :=
  (c3_day_unit_start (TIME_FRAME_CONFIG TimeFrame.t1w) (localInstant 2024 6 15 10 0) rfl rfl).1

theorem daysOf_getWeekStart (t : Int) :
    daysOf (getWeekStart t) = mondayOnOrBefore (daysOf t) := by
  have hd : (if getDay t = 0 then 7 else getDay t) - 1 = (daysOf t - 4) % 7 := by
    simp only [getDay]
    split_ifs with h <;> omega
  simp only [getWeekStart]
  rw [show getDate t - (if getDay t = 0 then 7 else getDay t) + 1 =
      getDate t - ((if getDay t = 0 then 7 else getDay t) - 1) by ring]
  rw [setDate_getDate_sub, hd]
  simp only [mondayOnOrBefore, daysOf, dayMs]
  omega

theorem getDateComponents_ymd_eq (a b : Int) (h : daysOf a = daysOf b) :
    (getDateComponents a).year = (getDateComponents b).year ∧
    (getDateComponents a).month = (getDateComponents b).month ∧
    (getDateComponents a).day = (getDateComponents b).day := by
  simp only [getDateComponents, getFullYear, getMonth, getDate, h]
  exact ⟨trivial, trivial, trivial⟩

/-- C7: for every instant, the week bucket label is the YYYY-MM-DD label of
the Monday day number on or before the instant's day — that day really is a
Monday, lies at most 6 days back, and for a Sunday lies exactly 6 days back —
and in particular an instant on Sunday 2024-06-16 gets the label 2024-06-10. -/
theorem c7_week_label_is_monday (t : Int) :
    (formatDateForGrouping t GroupingInterval.week =
      formatDateForGrouping (mondayOnOrBefore (daysOf t) * dayMs) GroupingInterval.day) ∧
    getDay (mondayOnOrBefore (daysOf t) * dayMs) = 1 ∧
    mondayOnOrBefore (daysOf t) ≤ daysOf t ∧
    daysOf t - mondayOnOrBefore (daysOf t) < 7 ∧
    (getDay t = 0 → daysOf t - mondayOnOrBefore (daysOf t) = 6) ∧
    formatDateForGrouping (localInstant 2024 6 16 15 30) GroupingInterval.week = "2024-06-10" := by
  have hdays : daysOf (getWeekStart t) = daysOf (mondayOnOrBefore (daysOf t) * dayMs) := by
    rw [daysOf_getWeekStart]
    simp only [daysOf, dayMs]
    omega
  obtain ⟨hy, hm, hd⟩ := getDateComponents_ymd_eq (getWeekStart t)
    (mondayOnOrBefore (daysOf t) * dayMs) hdays
  refine ⟨?_, ?_, ?_, ?_, ?_, by decide⟩
  · simp only [formatDateForGrouping, hy, hm, hd]
  · simp only [getDay, mondayOnOrBefore, daysOf, dayMs]
    omega
  · simp only [mondayOnOrBefore]
    omega
  · simp only [mondayOnOrBefore]
    omega
  · intro h0
    simp only [getDay] at h0
    simp only [mondayOnOrBefore]
    omega

theorem c7_week_label_is_monday_witness :
    daysOf (localInstant 2024 6 16 15 30) -
      mondayOnOrBefore (daysOf (localInstant 2024 6 16 15 30)) = 6 :=
  (c7_week_label_is_monday (localInstant 2024 6 16 15 30)).2.2.2.2.1 (by decide)

theorem setDate_getDate_self (t : Int) : setDate t (getDate t) = t := by
  have h := setDate_getDate_add t 0
  simpa using h

theorem legacy_eq_service_t1d (now : Int) :
    legacyGetDateRange TimeFrame.t1d now = getDateRange TimeFrame.t1d now := by
  simp [legacyGetDateRange, getDateRange, TIME_FRAME_CONFIG, calculateStartDate,
    calculateEndDate, calculatePreviousPeriod, previousStartRaw, previousEndRaw,
    addTimeUnit, setDate_getDate_self, setDate_getDate_add, setDate_getDate_sub]
  simp only [setStartOfDay, setEndOfDay, setHours, daysOf, todOf, dayMs, hourMs, true_and]
  all_goals omega

theorem legacy_eq_service_t1w (now : Int) :
    legacyGetDateRange TimeFrame.t1w now = getDateRange TimeFrame.t1w now := by
  simp [legacyGetDateRange, getDateRange, TIME_FRAME_CONFIG, calculateStartDate,
    calculateEndDate, calculatePreviousPeriod, previousStartRaw, previousEndRaw,
    addTimeUnit, setDate_getDate_self, setDate_getDate_add, setDate_getDate_sub]
  simp only [setStartOfDay, setEndOfDay, setHours, daysOf, todOf, dayMs, hourMs, true_and]
  all_goals omega

/-- C5 counterexample: at timeFrame 1m and now = 2024-06-15T10:00 local, the
legacy route-embedded getDateRange and the service getDateRange return
different DateRanges (their previousStart fields differ by two days). -/
theorem c5_counterexample :
    legacyGetDateRange TimeFrame.t1m (localInstant 2024 6 15 10 0) ≠
      getDateRange TimeFrame.t1m (localInstant 2024 6 15 10 0) := by decide

/-- C5 amended: the two historical implementations agree on the full
DateRange for the day-unit frames 1d and 1w at every now, but diverge for
month/year frames: the legacy code derives previousStart by calendar-unit
subtraction while the service uses the wall-clock span, so for 1m at
now = 2024-06-15T10:00 the legacy previousStart is 2024-04-15 and the
service's is 2024-04-13, although start and previousEnd still agree there. -/
theorem c5_legacy_service_partial_equivalence :
    (∀ now, legacyGetDateRange TimeFrame.t1d now = getDateRange TimeFrame.t1d now) ∧
    (∀ now, legacyGetDateRange TimeFrame.t1w now = getDateRange TimeFrame.t1w now) ∧
    (legacyGetDateRange TimeFrame.t1m (localInstant 2024 6 15 10 0)).previousStart =
      some (localMidnight 2024 4 15) ∧
    (getDateRange TimeFrame.t1m (localInstant 2024 6 15 10 0)).previousStart =
      some (localMidnight 2024 4 13) ∧
    (legacyGetDateRange TimeFrame.t1m (localInstant 2024 6 15 10 0)).start =
      (getDateRange TimeFrame.t1m (localInstant 2024 6 15 10 0)).start ∧
    (legacyGetDateRange TimeFrame.t1m (localInstant 2024 6 15 10 0)).previousEnd =
      (getDateRange TimeFrame.t1m (localInstant 2024 6 15 10 0)).previousEnd :=
  ⟨legacy_eq_service_t1d, legacy_eq_service_t1w, by decide, by decide, by decide, by decide⟩

theorem calcStart_month_mk (n tod : Int) (config : TimeFrameConfig)
    (h0 : 0 ≤ tod) (h1 : tod < dayMs) (hu : config.unit = DateUnit.month) :
    calculateStartDate (n * dayMs + tod) config =
      makeDay (ym_from_days n).1 ((ym_from_days n).2 - 1 + -config.duration)
        (n - makeDay (ym_from_days n).1 ((ym_from_days n).2 - 1) 1 + 1) * dayMs := by
  have hd : daysOf (n * dayMs + tod) = n := by
    simp only [daysOf, dayMs] at h1 ⊢
    omega
  have ht : todOf (n * dayMs + tod) = tod := by
    simp only [todOf, dayMs] at h1 ⊢
    omega
  simp only [calculateStartDate, hu]
  rw [if_neg (by decide)]
  simp only [addTimeUnit, setMonth, getFullYear, getMonth, getDate, hd, ht]
  exact setStartOfDay_mk _ tod h0 h1

theorem calcStart_year_mk (n tod : Int) (config : TimeFrameConfig)
    (h0 : 0 ≤ tod) (h1 : tod < dayMs) (hu : config.unit = DateUnit.year) :
    calculateStartDate (n * dayMs + tod) config =
      makeDay ((ym_from_days n).1 + -config.duration) ((ym_from_days n).2 - 1)
        (n - makeDay (ym_from_days n).1 ((ym_from_days n).2 - 1) 1 + 1) * dayMs := by
  have hd : daysOf (n * dayMs + tod) = n := by
    simp only [daysOf, dayMs] at h1 ⊢
    omega
  have ht : todOf (n * dayMs + tod) = tod := by
    simp only [todOf, dayMs] at h1 ⊢
    omega
  simp only [calculateStartDate, hu]
  rw [if_neg (by decide)]
  simp only [addTimeUnit, setFullYear, getFullYear, getMonth, getDate, hd, ht]
  exact setStartOfDay_mk _ tod h0 h1

/-- C1 counterexample: computing the 1m window start at
now = 2024-03-31T10:00 local lands on 2024-03-02, not on the last valid day
of February (2024-02-29) as the claim states. -/
theorem c1_counterexample :
    calculateStartDate (localInstant 2024 3 31 10 0) (TIME_FRAME_CONFIG TimeFrame.t1m) =
      localMidnight 2024 3 2 ∧
    localMidnight 2024 3 2 ≠ localMidnight 2024 2 29 := by decide

/-- C1 amended: for month/year-unit TimeFrames, computeRange subtracts the
configured duration with the runtime's native setMonth / setFullYear
semantics, which keep the day-of-month and let an excess day-of-month
overflow past the end of the shorter target month, before flooring to
start-of-day: at any time of day, March 31 2024 minus 1 month lands on
March 2 (leap year), March 31 2023 minus 1 month on March 3, January 31 2024
minus 1 month on December 31 2023 (a valid date, no overflow), and
February 29 2024 minus 1 year on March 1 2023. -/
theorem c1_month_year_subtraction_overflow (tod : Int) (h0 : 0 ≤ tod) (h1 : tod < dayMs) :
    calculateStartDate (localMidnight 2024 3 31 + tod) (TIME_FRAME_CONFIG TimeFrame.t1m) =
      localMidnight 2024 3 2 ∧
    calculateStartDate (localMidnight 2023 3 31 + tod) (TIME_FRAME_CONFIG TimeFrame.t1m) =
      localMidnight 2023 3 3 ∧
    calculateStartDate (localMidnight 2024 1 31 + tod) (TIME_FRAME_CONFIG TimeFrame.t1m) =
      localMidnight 2023 12 31 ∧
    calculateStartDate (localMidnight 2024 2 29 + tod) (TIME_FRAME_CONFIG TimeFrame.t1y) =
      localMidnight 2023 3 1 := by
  have m1 := calcStart_month_mk 19813 tod (TIME_FRAME_CONFIG TimeFrame.t1m) h0 h1 rfl
  rw [show makeDay (ym_from_days 19813).1
      ((ym_from_days 19813).2 - 1 + -(TIME_FRAME_CONFIG TimeFrame.t1m).duration)
      (19813 - makeDay (ym_from_days 19813).1 ((ym_from_days 19813).2 - 1) 1 + 1) = 19784
    from by decide] at m1
  have m2 := calcStart_month_mk 19447 tod (TIME_FRAME_CONFIG TimeFrame.t1m) h0 h1 rfl
  rw [show makeDay (ym_from_days 19447).1
      ((ym_from_days 19447).2 - 1 + -(TIME_FRAME_CONFIG TimeFrame.t1m).duration)
      (19447 - makeDay (ym_from_days 19447).1 ((ym_from_days 19447).2 - 1) 1 + 1) = 19419
    from by decide] at m2
  have m3 := calcStart_month_mk 19753 tod (TIME_FRAME_CONFIG TimeFrame.t1m) h0 h1 rfl
  rw [show makeDay (ym_from_days 19753).1
      ((ym_from_days 19753).2 - 1 + -(TIME_FRAME_CONFIG TimeFrame.t1m).duration)
      (19753 - makeDay (ym_from_days 19753).1 ((ym_from_days 19753).2 - 1) 1 + 1) = 19722
    from by decide] at m3
  have m4 := calcStart_year_mk 19782 tod (TIME_FRAME_CONFIG TimeFrame.t1y) h0 h1 rfl
  rw [show makeDay ((ym_from_days 19782).1 + -(TIME_FRAME_CONFIG TimeFrame.t1y).duration)
      ((ym_from_days 19782).2 - 1)
      (19782 - makeDay (ym_from_days 19782).1 ((ym_from_days 19782).2 - 1) 1 + 1) = 19417
    from by decide] at m4
  refine ⟨?_, ?_, ?_, ?_⟩
  · rw [show localMidnight 2024 3 31 = 19813 * dayMs from by decide,
      show localMidnight 2024 3 2 = 19784 * dayMs from by decide]
    exact m1
  · rw [show localMidnight 2023 3 31 = 19447 * dayMs from by decide,
      show localMidnight 2023 3 3 = 19419 * dayMs from by decide]
    exact m2
  · rw [show localMidnight 2024 1 31 = 19753 * dayMs from by decide,
      show localMidnight 2023 12 31 = 19722 * dayMs from by decide]
    exact m3
  · rw [show localMidnight 2024 2 29 = 19782 * dayMs from by decide,
      show localMidnight 2023 3 1 = 19417 * dayMs from by decide]
    exact m4

theorem c1_month_year_subtraction_overflow_witness :
    calculateStartDate (localMidnight 2024 3 31 + 36000000) (TIME_FRAME_CONFIG TimeFrame.t1m) =
      localMidnight 2024 3 2 :=
  (c1_month_year_subtraction_overflow 36000000 (by decide) (by decide)).1

/-- C6 counterexample: with host offset UTC−5 the date-only string 2024-03-15
parses to UTC midnight, which falls on local March 14, so normalizeDate
floors it to local start-of-day of 2024-03-14, not of 2024-03-15 as the
claim states. -/
theorem c6_counterexample :
    normalizeDate (-18000000) (DateValue.str "2024-03-15") = some (localMidnight 2024 3 14) ∧
    localMidnight 2024 3 14 ≠ localMidnight 2024 3 15 := by decide

/-- C6 amended: the Date Normalizer maps absent and empty input to absent,
returns a native date value unchanged, maps an unparseable string to absent,
floors a strict YYYY-MM-DD string to local start-of-day of the local day
containing the parser's UTC-midnight instant — which is the named date
exactly when the host UTC offset is nonnegative (UTC or east of it), as in
conjunct six — and returns any other parseable string as the parsed instant
with its time-of-day preserved. -/
theorem c6_normalizer (off t : Int) (hoff0 : 0 ≤ off) (hoff1 : off < dayMs) :
    normalizeDate off DateValue.undef = none ∧
    normalizeDate off (DateValue.str "") = none ∧
    normalizeDate off (DateValue.dateObj t) = some t ∧
    normalizeDate off (DateValue.str "not a date") = none ∧
    normalizeDate off (DateValue.str "2024-03-15") =
      some (setStartOfDay (localMidnight 2024 3 15 + off)) ∧
    normalizeDate off (DateValue.str "2024-03-15") = some (localMidnight 2024 3 15) ∧
    normalizeDate off (DateValue.str "2024-03-15T14:30:00Z") =
      some (localInstant 2024 3 15 14 30 + off) := by
  have h5 : normalizeDate off (DateValue.str "2024-03-15") =
      some (setStartOfDay (localMidnight 2024 3 15 + off)) := rfl
  refine ⟨rfl, rfl, rfl, rfl, h5, ?_, rfl⟩
  rw [h5, show localMidnight 2024 3 15 = 19797 * dayMs from by decide,
    setStartOfDay_mk 19797 off hoff0 hoff1]

theorem c6_normalizer_witness :
    normalizeDate 3600000 (DateValue.str "2024-03-15") = some (localMidnight 2024 3 15) :=
  (c6_normalizer 3600000 0 (by decide) (by decide)).2.2.2.2.2.1

/-- C4 counterexample: with current total 31 and previous total 32 the raw
change is −3.125 percent; the code's Math.round(change × 100) / 100 gives
−3.12, while rounding half away from zero on the 3rd decimal digit, as the
claim states, gives −3.13. -/
theorem c4_counterexample :
    roundedStatsChange 31 32 = -78 / 25 ∧
    specRound2HalfAwayFromZero (statsChange 31 32) = -313 / 100 ∧
    ((-78 / 25 : ℚ) ≠ -313 / 100) := by
  have hraw : statsChange 31 32 = -25 / 8 := by
    norm_num [statsChange]
  refine ⟨?_, ?_, by norm_num⟩
  · rw [roundedStatsChange, hraw, jsMathRound,
      show ((-25 / 8 : ℚ) * 100 + 1 / 2) = ((-312 : Int) : ℚ) by norm_num,
      Int.floor_intCast]
    norm_num
  · rw [specRound2HalfAwayFromZero, hraw, if_neg (by norm_num),
      show (-(-25 / 8 : ℚ) * 100 + 1 / 2) = ((313 : Int) : ℚ) by norm_num,
      Int.floor_intCast]
    norm_num

theorem jsMathRound_eq (q : ℚ) (n : Int) (h1 : (n : ℚ) ≤ q + 1 / 2) (h2 : q + 1 / 2 < n + 1) :
    jsMathRound q = n := by
  rw [jsMathRound]
  exact Int.floor_eq_iff.mpr ⟨h1, by exact_mod_cast h2⟩

/-- C4 amended: the change metric equals ((current − previous) / previous) × 100
when previous > 0, equals 100 when previous = 0 < current, and 0 when both are
0; it is rounded to 2 decimals with Math.round semantics — ties toward
positive infinity — which agrees with round-half-away-from-zero whenever the
change is nonnegative but not on negative ties: 10/0 gives 100, 0/0 gives 0,
5/10 gives −50, and 31/32 gives −3.12; the treatments aggregator's change
field is exactly this rounded metric of its two totals. -/
theorem c4_change_metric :
    (∀ tc tp : Nat, 0 < tp →
      statsChange tc tp = (((tc : ℚ) - (tp : ℚ)) / (tp : ℚ)) * 100) ∧
    (∀ tc tp : Nat, 0 ≤ statsChange tc tp →
      roundedStatsChange tc tp = specRound2HalfAwayFromZero (statsChange tc tp)) ∧
    roundedStatsChange 10 0 = 100 ∧
    roundedStatsChange 0 0 = 0 ∧
    roundedStatsChange 5 10 = -50 ∧
    roundedStatsChange 31 32 = -78 / 25 ∧
    (∀ off recs tf now,
      (getTreatmentsStatsCore off recs tf now).change =
        roundedStatsChange (getTreatmentsStatsCore off recs tf now).current.total
          (getTreatmentsStatsCore off recs tf now).previous.total) := by
  refine ⟨?_, ?_, ?_, ?_, ?_, ?_, ?_⟩
  · intro tc tp h
    simp [statsChange, h]
  · intro tc tp h
    rw [roundedStatsChange, jsMathRound, specRound2HalfAwayFromZero, if_pos h]
  · rw [roundedStatsChange, jsMathRound_eq _ 10000 (by norm_num [statsChange])
      (by norm_num [statsChange])]
    norm_num
  · rw [roundedStatsChange, jsMathRound_eq _ 0 (by norm_num [statsChange])
      (by norm_num [statsChange])]
    norm_num
  · rw [roundedStatsChange, jsMathRound_eq _ (-5000) (by norm_num [statsChange])
      (by norm_num [statsChange])]
    norm_num
  · rw [roundedStatsChange, jsMathRound_eq _ (-312) (by norm_num [statsChange])
      (by norm_num [statsChange])]
    norm_num
  · intro off recs tf now
    rfl

theorem c4_change_metric_witness :
    statsChange 5 10 = (((5 : ℚ) - (10 : ℚ)) / (10 : ℚ)) * 100 :=
  c4_change_metric.1 5 10 (by decide)

theorem filter_false_nil {α : Type} (p : α → Bool) (l : List α)
    (h : ∀ a, p a = false) : l.filter p = [] := by
  induction l with
  | nil => rfl
  | cons a t ih => simp [List.filter_cons, h, ih]

theorem patientInRange_degenerate (s : Int) (p : PatientRec) :
    patientInRange s (s - 1) p = false := by
  simp only [patientInRange, Bool.and_eq_false_iff, decide_eq_false_iff_not]
  omega

theorem inheritedGetDateRange_eq (now : Int) :
    inheritedGetDateRange now =
      ⟨setStartOfDay now, setStartOfDay now - 1, some (setStartOfDay now),
        some (setStartOfDay now - 1)⟩ := by
  simp [inheritedGetDateRange, inheritedCalculateStartDate, inheritedCalculateEndDate,
    addTimeUnit, setDate_getDate_add, previousStartRaw, previousEndRaw]
  simp only [setStartOfDay, setEndOfDay, setHours, daysOf, todOf, dayMs, hourMs, true_and]
  all_goals omega

theorem inherited_totals_zero (off : Int) (patients : List PatientRec)
    (tok : String) (now : Int) :
    (getPatientsStatsInherited off patients tok now).current.total = 0 ∧
    (getPatientsStatsInherited off patients tok now).previous.total = 0 := by
  have hnil : patients.filter
      (patientInRange (setStartOfDay now) (setStartOfDay now - 1)) = [] :=
    filter_false_nil _ _ (patientInRange_degenerate (setStartOfDay now))
  simp [getPatientsStatsInherited, inheritedGetDateRange_eq, hnil]

/-- C8 counterexample: the genuinely unknown token 2w is rejected with the
Invalid time frame error before any record is read, but the error is a
plain Error, which the app-level handler reports as status 500 with code
Server Error — a server-side classification, not a client-input (4xx) one as
the claim states; and the token toString, also outside the five known
tokens, is not rejected at all: the truthy config inherited from
Object.prototype passes the guard and the service proceeds over the fetched
records to an ok response. -/
theorem c8_counterexample :
    getPatientsStatsService 0 (some []) "2w" 0 =
      Except.error (JsError.plain "Invalid time frame: 2w") ∧
    appErrorStatus (JsError.plain "Invalid time frame: 2w") = 500 ∧
    appErrorCode (JsError.plain "Invalid time frame: 2w") = "Server Error" ∧
    isClientErrorStatus 500 = false ∧
    getPatientsStatsService 0 (some [PatientRec.mk 5]) "toString" 0 =
      Except.ok (getPatientsStatsInherited 0 [PatientRec.mk 5] "toString" 0) ∧
    getPatientsStatsService 0 (some [PatientRec.mk 5]) "toString" 0 ≠
      Except.error (JsError.plain "Invalid time frame: toString") ∧
    (getPatientsStatsInherited 0 [PatientRec.mk 5] "toString" 0).timeFrame = "toString" :=
  ⟨rfl, rfl, rfl, rfl, rfl, fun h => by
    rw [show getPatientsStatsService 0 (some [PatientRec.mk 5]) "toString" 0 =
        Except.ok (getPatientsStatsInherited 0 [PatientRec.mk 5] "toString" 0) from rfl] at h
    exact Except.noConfusion h, rfl⟩

/-- C8 amended: a timeFrame token outside the five known tokens is rejected
with the Invalid time frame error before any data is fetched only when it is
also not a property name inherited from Object.prototype: for such genuinely
absent tokens the same plain Error results for every record set and every
now, so no fetched data can influence it, and the application error handler
reports it as a 500 Server Error — a server-side classification rather than
a client-input error.  A token colliding with an inherited Object.prototype
member is not rejected at all: the service returns ok, proceeding over the
fetched records with a degenerate empty window, so both totals are 0. -/
theorem c8_invalid_timeframe (off off2 now now2 : Int) (recs recs2 : List PatientRec)
    (tok : String) (h : lookupTimeFrame tok = ConfigLookup.absent) :
    getPatientsStatsService off (some recs) tok now =
      Except.error (JsError.plain ("Invalid time frame: " ++ tok)) ∧
    getPatientsStatsService off (some recs) tok now =
      getPatientsStatsService off2 (some recs2) tok now2 ∧
    appErrorStatus (JsError.plain ("Invalid time frame: " ++ tok)) = 500 ∧
    isClientErrorStatus (appErrorStatus (JsError.plain ("Invalid time frame: " ++ tok))) =
      false ∧
    (∀ (tok2 : String) (patients : List PatientRec) (now3 : Int),
      lookupTimeFrame tok2 = ConfigLookup.inherited →
      getPatientsStatsService off (some patients) tok2 now3 =
        Except.ok (getPatientsStatsInherited off patients tok2 now3) ∧
      (getPatientsStatsInherited off patients tok2 now3).current.total = 0 ∧
      (getPatientsStatsInherited off patients tok2 now3).previous.total = 0) := by
  refine ⟨?_, ?_, rfl, rfl, ?_⟩
  · simp [getPatientsStatsService, h]
  · simp [getPatientsStatsService, h]
  · intro tok2 patients now3 h2
    exact ⟨by simp [getPatientsStatsService, h2],
      (inherited_totals_zero off patients tok2 now3).1,
      (inherited_totals_zero off patients tok2 now3).2⟩

theorem c8_invalid_timeframe_witness :
    getPatientsStatsService 0 (some []) "2w" 0 =
      Except.error (JsError.plain ("Invalid time frame: " ++ "2w")) :=
  (c8_invalid_timeframe 0 1 0 1 [] [⟨0⟩] "2w" (by decide)).1

/-- C9: a record whose date field cannot be normalised (absent or
unparseable) is silently excluded from both partitions — prepending such a
record to the record set leaves the whole aggregation result unchanged — and
never causes the call to fail: with the collection present and the time
frame token valid the service still returns ok with the same stats. -/
theorem c9_unparseable_record_skipped (off : Int) (rec : TreatmentRec)
    (recs : List TreatmentRec) (tf : TimeFrame) (now : Int)
    (h : normalizeDate off rec.date = none) :
    getTreatmentsStatsCore off (rec :: recs) tf now =
      getTreatmentsStatsCore off recs tf now ∧
    (∀ tok, lookupTimeFrame tok = ConfigLookup.own tf →
      getTreatmentsStatsService off (some (rec :: recs)) tok now =
        Except.ok (getTreatmentsStatsCore off recs tf now)) := by
  have hfilter : ∀ s e, treatmentInRange off s e rec = false := by
    intro s e
    simp [treatmentInRange, h]
  have hmain : getTreatmentsStatsCore off (rec :: recs) tf now =
      getTreatmentsStatsCore off recs tf now := by
    simp [getTreatmentsStatsCore, getDateRange, List.filter_cons, hfilter]
  exact ⟨hmain, fun tok htok => by simp [getTreatmentsStatsService, htok, hmain]⟩

theorem c9_unparseable_record_skipped_witness :
    getTreatmentsStatsCore 0
        (TreatmentRec.mk (DateValue.str "garbage") :: [TreatmentRec.mk (DateValue.str "2024-06-10")])
        TimeFrame.t1w 0 =
      getTreatmentsStatsCore 0 [TreatmentRec.mk (DateValue.str "2024-06-10")] TimeFrame.t1w 0 :=
  (c9_unparseable_record_skipped 0 (TreatmentRec.mk (DateValue.str "garbage"))
    [TreatmentRec.mk (DateValue.str "2024-06-10")] TimeFrame.t1w 0 (by decide)).1

theorem charListLe_total (x y : List Char) : charListLe x y = true ∨ charListLe y x = true := by
  induction x generalizing y with
  | nil =>
      left
      rfl
  | cons cx xs ih =>
      cases y with
      | nil =>
          right
          rfl
      | cons cy ys =>
          simp only [charListLe]
          split_ifs <;> first | simp | omega | exact ih ys

theorem charListLe_trans (x y z : List Char) (hxy : charListLe x y = true)
    (hyz : charListLe y z = true) : charListLe x z = true := by
  induction x generalizing y z with
  | nil => rfl
  | cons cx xs ih =>
      cases y with
      | nil => simp [charListLe] at hxy
      | cons cy ys =>
          cases z with
          | nil => simp [charListLe] at hyz
          | cons cz zs =>
              simp only [charListLe] at hxy hyz ⊢
              split_ifs at hxy hyz ⊢ <;>
                first
                | rfl
                | omega
                | exact ih ys zs hxy hyz

theorem labelLe_total (a b : String) : labelLe a b = true ∨ labelLe b a = true :=
  charListLe_total a.data b.data

theorem labelLe_trans (a b c : String) (h1 : labelLe a b = true) (h2 : labelLe b c = true) :
    labelLe a c = true :=
  charListLe_trans a.data b.data c.data h1 h2

theorem mem_insertBucketSorted (x b : PeriodBucket) (l : List PeriodBucket)
    (hx : x ∈ insertBucketSorted b l) : x = b ∨ x ∈ l := by
  induction l with
  | nil => simpa [insertBucketSorted] using hx
  | cons c rest ih =>
      simp only [insertBucketSorted] at hx
      split_ifs at hx with hb
      · simpa using hx
      · rcases List.mem_cons.mp hx with rfl | hx2
        · right
          exact List.mem_cons_self _ _
        · rcases ih hx2 with rfl | hx3
          · left
            rfl
          · right
            exact List.mem_cons_of_mem _ hx3

theorem pairwise_insertBucketSorted (b : PeriodBucket) (l : List PeriodBucket)
    (h : l.Pairwise (fun u v => labelLe u.period v.period = true)) :
    (insertBucketSorted b l).Pairwise (fun u v => labelLe u.period v.period = true) := by
  induction l with
  | nil => simp [insertBucketSorted]
  | cons c rest ih =>
      rcases List.pairwise_cons.mp h with ⟨hc, hrest⟩
      simp only [insertBucketSorted]
      split_ifs with hb
      · refine List.pairwise_cons.mpr ⟨?_, h⟩
        intro v hv
        rcases List.mem_cons.mp hv with rfl | hv2
        · exact hb
        · exact labelLe_trans _ _ _ hb (hc v hv2)
      · refine List.pairwise_cons.mpr ⟨?_, ih hrest⟩
        intro v hv
        rcases mem_insertBucketSorted v b rest hv with heq | hv2
        · rw [heq]
          rcases labelLe_total b.period c.period with h1 | h1
          · exact absurd h1 hb
          · exact h1
        · exact hc v hv2

theorem sortBuckets_pairwise (l : List PeriodBucket) :
    (sortBucketsByPeriod l).Pairwise (fun u v => labelLe u.period v.period = true) := by
  induction l with
  | nil => simp [sortBucketsByPeriod]
  | cons b rest ih =>
      simpa [sortBucketsByPeriod] using
        pairwise_insertBucketSorted b (sortBucketsByPeriod rest)
          (by simpa [sortBucketsByPeriod] using ih)

theorem mem_sortBuckets (x : PeriodBucket) (l : List PeriodBucket)
    (hx : x ∈ sortBucketsByPeriod l) : x ∈ l := by
  induction l with
  | nil =>
      simp [sortBucketsByPeriod] at hx
  | cons b rest ih =>
      rcases mem_insertBucketSorted x b (sortBucketsByPeriod rest)
          (by simpa [sortBucketsByPeriod] using hx) with rfl | h2
      · exact List.mem_cons_self _ _
      · exact List.mem_cons_of_mem _ (ih h2)

theorem bumpKey_pos (l : List (String × Nat)) (k : String)
    (h : ∀ e ∈ l, 1 ≤ e.2) : ∀ e ∈ bumpKey l k, 1 ≤ e.2 := by
  induction l with
  | nil =>
      intro e he
      simp only [bumpKey, List.mem_singleton] at he
      subst he
      exact le_refl 1
  | cons p rest ih =>
      obtain ⟨k2, c⟩ := p
      intro e he
      simp only [bumpKey] at he
      split_ifs at he with hk
      · rcases List.mem_cons.mp he with rfl | h2
        · simp
        · exact h _ (List.mem_cons_of_mem _ h2)
      · rcases List.mem_cons.mp he with rfl | h2
        · exact h _ (List.mem_cons_self _ _)
        · exact ih (fun e2 he2 => h e2 (List.mem_cons_of_mem _ he2)) e h2

theorem groupByInterval_pos {α : Type} (off : Int) (items : List α)
    (interval : GroupingInterval) (ext : α → DateValue) :
    ∀ e ∈ groupByInterval off items interval ext, 1 ≤ e.2 := by
  suffices haux : ∀ acc : List (String × Nat), (∀ e ∈ acc, 1 ≤ e.2) →
      ∀ e ∈ List.foldl
        (fun grouped item =>
          match normalizeDate off (ext item) with
          | none => grouped
          | some d => bumpKey grouped (formatDateForGrouping d interval))
        acc items, 1 ≤ e.2 by
    intro e he
    exact haux [] (by simp) e he
  induction items with
  | nil =>
      intro acc hacc e he
      simpa using hacc e (by simpa using he)
  | cons i rest ih =>
      intro acc hacc e he
      simp only [List.foldl_cons] at he
      refine ih _ ?_ e he
      cases hnd : normalizeDate off (ext i) with
      | none => simpa [hnd] using hacc
      | some d =>
          simp only [hnd]
          exact bumpKey_pos acc _ hacc

/-- C10: in every TimeSeriesStats produced by the treatments aggregator,
every bucket of the current and of the previous sequence has count at least 1
— a grouping interval with no records is simply absent rather than reported
with count 0 — and both sequences are sorted ascending by label under the
lexicographic label order. -/
theorem c10_bucket_invariants (off : Int) (recs : List TreatmentRec)
    (tf : TimeFrame) (now : Int) :
    (∀ b ∈ (getTreatmentsStatsCore off recs tf now).current.data, 1 ≤ b.count) ∧
    (getTreatmentsStatsCore off recs tf now).current.data.Pairwise
      (fun u v => labelLe u.period v.period = true) ∧
    (∀ b ∈ (getTreatmentsStatsCore off recs tf now).previous.data, 1 ≤ b.count) ∧
    (getTreatmentsStatsCore off recs tf now).previous.data.Pairwise
      (fun u v => labelLe u.period v.period = true) := by
  have hdata : ∀ grouped : List (String × Nat), (∀ e ∈ grouped, 1 ≤ e.2) →
      (∀ b ∈ convertToPeriodData grouped, 1 ≤ b.count) ∧
      (convertToPeriodData grouped).Pairwise (fun u v => labelLe u.period v.period = true) := by
    intro grouped hg
    constructor
    · intro b hb
      rcases List.mem_map.mp (mem_sortBuckets b _ hb) with ⟨e, he, rfl⟩
      exact hg e he
    · exact sortBuckets_pairwise _
  refine ⟨(hdata _ (groupByInterval_pos _ _ _ _)).1, (hdata _ (groupByInterval_pos _ _ _ _)).2,
    (hdata _ (groupByInterval_pos _ _ _ _)).1, (hdata _ (groupByInterval_pos _ _ _ _)).2⟩

theorem c10_bucket_invariants_witness :
    1 ≤ (PeriodBucket.mk "2024-06-10" 2).count :=
  (c10_bucket_invariants 0
      [TreatmentRec.mk (DateValue.str "2024-06-10"),
        TreatmentRec.mk (DateValue.str "2024-06-10T23:00:00"),
        TreatmentRec.mk (DateValue.str "2024-06-11")]
      TimeFrame.t1w (localInstant 2024 6 15 10 0)).1
    (PeriodBucket.mk "2024-06-10" 2) (by decide)
